import Mathlib

/-!
Verification of the AI Icarus V2 Beta backend: a shallow embedding of
the KQL syntax pre-check (`validate_kql_syntax` in
`backend/agents/kql_assistant_agent.py`, lines 192-217) and of the
chat-forwarding endpoint (`chat` in `backend/main.py`, lines 96-138),
with theorems settling the specification claims about them.
-/

namespace Icarus

/-- Whitespace predicate of Python `str.strip()`: the characters for
which `Py_UNICODE_ISSPACE` holds — space, tab, newline, vertical tab,
form feed, carriage return, the file/group/record/unit separators,
next line, non-breaking space, ogham space mark, the en-quad through
hair-space block U+2000..U+200A, line separator, paragraph separator,
narrow no-break space, medium mathematical space and ideographic
space. -/
def pyIsSpace (c : Char) : Bool :=
  c = ' ' || c = '\t' || c = '\n' || c = '\x0b' || c = '\x0c' || c = '\r' ||
  c = '\x1c' || c = '\x1d' || c = '\x1e' || c = '\x1f' || c = '\x85' || c = '\xa0' ||
  c = '\u1680' ||
  c = '\u2000' || c = '\u2001' || c = '\u2002' || c = '\u2003' || c = '\u2004' ||
  c = '\u2005' || c = '\u2006' || c = '\u2007' || c = '\u2008' || c = '\u2009' ||
  c = '\u200a' ||
  c = '\u2028' || c = '\u2029' || c = '\u202f' || c = '\u205f' || c = '\u3000'

/-- Python `kql_query.strip()`: remove leading and trailing whitespace. -/
def pyStrip (s : String) : String :=
  String.mk (((s.data.dropWhile pyIsSpace).reverse.dropWhile pyIsSpace).reverse)

/-- The result of the syntax pre-check, as the spec's
`ValidationResult`: the code serialises exactly these fields to its
JSON reply (`valid` plus either `errors` or `message`). -/
structure ValidationResult where
  valid : Bool
  errors : List String
  message : Option String
deriving Repr, DecidableEq

/-- The error accumulation of `validate_kql_syntax`
(`kql_assistant_agent.py` lines 205-212): start from the empty list,
append "Query is empty" when the stripped query is empty (Python's
`if not kql_query.strip()`), then append "Unmatched parentheses" when
the counts of the two parenthesis characters in the raw string differ. -/
def kqlErrors (kql_query : String) : List String :=
  let errors : List String := []
  let errors := if pyStrip kql_query = "" then errors ++ ["Query is empty"] else errors
  let errors :=
    if kql_query.data.count '(' ≠ kql_query.data.count ')' then
      errors ++ ["Unmatched parentheses"]
    else errors
  errors

/-- `validate_kql_syntax` (`kql_assistant_agent.py` lines 192-217): if
any error accumulated, return an invalid result carrying the error
list; otherwise return a valid result with the confirmatory message. -/
def validate_kql_syntax (kql_query : String) : ValidationResult :=
  let errors := kqlErrors kql_query
  if errors = [] then
    { valid := true, errors := [], message := some "Query syntax appears valid" }
  else
    { valid := false, errors := errors, message := none }

/-- The spec names the pre-check contract `validate_syntax`; it is the
same function. -/
def validate_syntax (kql_query : String) : ValidationResult :=
  validate_kql_syntax kql_query

/-- A chat message of the request body (`main.py` lines 38-40). -/
structure ChatMessage where
  role : String
  content : String
deriving Repr, DecidableEq

/-- The chat request body (`main.py` lines 42-45).  The source's
`temperature: Optional[float] = 0.7` is modelled with a rational
carrier since the handler only passes the value through, never
computes with it. -/
structure ChatRequest where
  messages : List ChatMessage
  temperature : Option Rat := some (7/10)
  max_tokens : Option Int := some 1000
deriving Repr, DecidableEq

/-- The three token-usage counters the handler copies out of the
upstream reply (`main.py` lines 123-127). -/
structure Usage where
  prompt_tokens : Int
  completion_tokens : Int
  total_tokens : Int
deriving Repr, DecidableEq

/-- The chat response body (`main.py` lines 47-49). -/
structure ChatResponse where
  message : String
  usage : Option Usage := none
deriving Repr, DecidableEq

/-- The argument bundle of one `azure_client.chat.completions.create`
invocation (`main.py` lines 114-119): deployment name, role/content
pairs in order, and the pass-through sampling parameters. -/
structure UpstreamCall where
  model : String
  messages : List (String × String)
  temperature : Option Rat
  max_tokens : Option Int
deriving Repr, DecidableEq

/-- The message part of one upstream completion choice. -/
structure UpstreamMessage where
  content : String
deriving Repr, DecidableEq

/-- One upstream completion choice. -/
structure UpstreamChoice where
  message : UpstreamMessage
deriving Repr, DecidableEq

/-- The upstream reply: a list of choices plus usage counters, the two
parts of the reply the handler reads (`main.py` lines 122-127). -/
structure UpstreamResponse where
  choices : List UpstreamChoice
  usage : Usage
deriving Repr, DecidableEq

/-- The configured upstream client: its observable behaviour is the
completion call, which either raises (modelled as `Except.error`
carrying the exception text) or returns a reply. -/
structure AzureClient where
  create : UpstreamCall → Except String UpstreamResponse

/-- FastAPI's `HTTPException` as raised by the handler: a status code
and a detail string. -/
structure HTTPException where
  status_code : Nat
  detail : String
deriving Repr, DecidableEq

/-- The upstream call the handler constructs from a request
(`main.py` lines 110-119): role/content pairs in input order,
`temperature` and `max_tokens` passed through unmodified. -/
def upstreamCallOf (deployment_name : String) (request : ChatRequest) : UpstreamCall :=
  { model := deployment_name,
    messages := request.messages.map fun msg => (msg.role, msg.content),
    temperature := request.temperature,
    max_tokens := request.max_tokens }

/-- The `/api/chat` handler (`main.py` lines 96-138).  The process-wide
`azure_client` handle and the deployment name read from the
environment are parameters; the second component of the result is the
trace of upstream calls made, so that "no call attempted" and "no
retry" are provable.  A missing client yields the 503 configuration
error before any call; an upstream exception yields the 500 error
carrying the exception text; an upstream reply with no choices makes
`response.choices[0]` raise an `IndexError` inside the `try`, caught
by the same 500 handler; otherwise the first choice's text and the
three usage counters form the response. -/
def chat (azure_client : Option AzureClient) (deployment_name : String)
    (request : ChatRequest) : Except HTTPException ChatResponse × List UpstreamCall :=
  match azure_client with
  | none =>
    (Except.error
      { status_code := 503,
        detail := "Azure OpenAI is not configured. Set AZURE_OPENAI_ENDPOINT and AZURE_OPENAI_API_KEY." },
     [])
  | some client =>
    let call := upstreamCallOf deployment_name request
    match client.create call with
    | Except.error e =>
      (Except.error { status_code := 500, detail := "Azure OpenAI API error: " ++ e }, [call])
    | Except.ok response =>
      match response.choices with
      | [] =>
        (Except.error { status_code := 500, detail := "Azure OpenAI API error: list index out of range" },
         [call])
      | choice :: _ =>
        (Except.ok
          { message := choice.message.content,
            usage := some
              { prompt_tokens := response.usage.prompt_tokens,
                completion_tokens := response.usage.completion_tokens,
                total_tokens := response.usage.total_tokens } },
         [call])

/-- A mocked upstream client whose call always raises. -/
def mockErrClient : AzureClient := ⟨fun _ => Except.error "boom"⟩

/-- A mocked upstream client returning completion text "Hello" with
usage counters 5, 3, 8, as in the spec's forwarding scenario. -/
def mockOkClient : AzureClient :=
  ⟨fun _ => Except.ok { choices := [⟨⟨"Hello"⟩⟩], usage := ⟨5, 3, 8⟩ }⟩

/-- The scenario request: one user message "Hi", default sampling
parameters. -/
def hiRequest : ChatRequest := { messages := [⟨"user", "Hi"⟩] }

/-- The emptiness of a stripped string is exactly the string being all
whitespace. -/
theorem pyStrip_eq_empty_iff (s : String) :
    pyStrip s = "" ↔ ∀ c ∈ s.data, pyIsSpace c = true := by
  unfold pyStrip
  constructor
  · intro h c hc
    have h2 : ((s.data.dropWhile pyIsSpace).reverse.dropWhile pyIsSpace).reverse = [] := by
      have := congrArg String.data h
      simpa using this
    rw [List.reverse_eq_nil_iff, List.dropWhile_eq_nil_iff] at h2
    have hall : ∀ x ∈ s.data.dropWhile pyIsSpace, pyIsSpace x = true := by
      intro x hx
      exact h2 x (List.mem_reverse.mpr hx)
    have hsplit : c ∈ List.takeWhile pyIsSpace s.data ∨ c ∈ List.dropWhile pyIsSpace s.data := by
      rw [← List.mem_append, List.takeWhile_append_dropWhile]
      exact hc
    rcases hsplit with h1 | h1
    · exact List.mem_takeWhile_imp h1
    · exact hall _ h1
  · intro h
    have hd : s.data.dropWhile pyIsSpace = [] := List.dropWhile_eq_nil_iff.mpr h
    simp [hd]

/-- A string whose stripped form is empty contains no parenthesis
characters. -/
theorem stripEmpty_no_parens (q : String) (h : pyStrip q = "") :
    q.data.count '(' = 0 ∧ q.data.count ')' = 0 := by
  have hall := (pyStrip_eq_empty_iff q).mp h
  constructor <;>
  · rw [List.count_eq_zero]
    intro hmem
    have := hall _ hmem
    simp [pyIsSpace] at this

/-- The accumulated error list, as the concatenation of the outcomes
of the two checks in order. -/
theorem kqlErrors_eq (q : String) :
    kqlErrors q =
      (if pyStrip q = "" then ["Query is empty"] else []) ++
      (if q.data.count '(' ≠ q.data.count ')' then ["Unmatched parentheses"] else []) := by
  unfold kqlErrors
  split <;> split <;> simp

/-- Membership in the result's error list agrees with membership in
the accumulated error list. -/
theorem mem_errors_iff (x : String) (q : String) :
    x ∈ ( validate_kql_syntax q).errors ↔ x ∈ kqlErrors q := by
  by_cases h : kqlErrors q = [] <;> simp [ validate_kql_syntax, h]

/-- The result is valid exactly when no error accumulated. -/
theorem valid_iff (q : String) :
    ( validate_kql_syntax q).valid = true ↔ kqlErrors q = [] := by
  by_cases h : kqlErrors q = [] <;> simp [ validate_kql_syntax, h]

/-- C1: the validation result contains "Unmatched parentheses" iff the
counts of the two parenthesis characters in the raw string differ, and
whenever that error is present the result is invalid. -/
theorem claim_C1 (q : String) :
    ("Unmatched parentheses" ∈ ( validate_kql_syntax q).errors ↔
      q.data.count '(' ≠ q.data.count ')') ∧
    ("Unmatched parentheses" ∈ ( validate_kql_syntax q).errors →
      ( validate_kql_syntax q).valid = false) := by
  constructor
  · rw [mem_errors_iff, kqlErrors_eq]
    by_cases hs : pyStrip q = "" <;>
      by_cases hp : q.data.count '(' ≠ q.data.count ')' <;>
        simp [hs, hp]
  · intro hmem
    have hne : kqlErrors q ≠ [] := List.ne_nil_of_mem ((mem_errors_iff _ q).mp hmem)
    simp [ validate_kql_syntax, hne]

/-- Witness for C1 at the one-character query "(": the error is
present and the result is invalid. -/
theorem claim_C1_witness :
    ( validate_kql_syntax "(").valid = false ∧
    "Unmatched parentheses" ∈ ( validate_kql_syntax "(").errors := by
  have hmem := (claim_C1 "(").1.mpr (by decide)
  exact ⟨(claim_C1 "(").2 hmem, hmem⟩

/-- C2: a query consisting only of whitespace (the empty string
included) validates as invalid with "Query is empty" among the
errors. -/
theorem claim_C2 (q : String) (h : ∀ c ∈ q.data, pyIsSpace c = true) :
    ( validate_kql_syntax q).valid = false ∧
    "Query is empty" ∈ ( validate_kql_syntax q).errors := by
  have hs : pyStrip q = "" := (pyStrip_eq_empty_iff q).mpr h
  have hmem : "Query is empty" ∈ kqlErrors q := by
    rw [kqlErrors_eq]
    simp [hs]
  have hne : kqlErrors q ≠ [] := List.ne_nil_of_mem hmem
  refine ⟨by simp [ validate_kql_syntax, hne], ?_⟩
  rw [mem_errors_iff]
  exact hmem

/-- Witness for C2 at the query consisting of one ideographic space
U+3000, a whitespace character outside Latin-1. -/
theorem claim_C2_witness :
    ( validate_kql_syntax "　").valid = false ∧
    "Query is empty" ∈ ( validate_kql_syntax "　").errors :=
  claim_C2 "　" (by decide)

/-- C3: the result is valid exactly when the accumulated errors are
empty; a valid result carries the single confirmatory message and no
errors; an invalid result carries the accumulated error list and no
message; and "Heartbeat | take 1" validates as valid with the
confirmatory message. -/
theorem claim_C3 (q : String) :
    (( validate_kql_syntax q).valid = true ↔ kqlErrors q = []) ∧
    (( validate_kql_syntax q).valid = true →
      ( validate_kql_syntax q).errors = [] ∧
      ( validate_kql_syntax q).message = some "Query syntax appears valid") ∧
    (( validate_kql_syntax q).valid = false →
      ( validate_kql_syntax q).errors = kqlErrors q ∧
      ( validate_kql_syntax q).message = none) ∧
    validate_kql_syntax "Heartbeat | take 1" =
      { valid := true, errors := [], message := some "Query syntax appears valid" } := by
  refine ⟨valid_iff q, ?_, ?_, by decide⟩ <;>
    by_cases h : kqlErrors q = [] <;> simp [ validate_kql_syntax, h]

/-- Witness for C3: the valid branch at "Heartbeat | take 1" and the
invalid branch at the empty string. -/
theorem claim_C3_witness :
    (( validate_kql_syntax "Heartbeat | take 1").errors = [] ∧
     ( validate_kql_syntax "Heartbeat | take 1").message = some "Query syntax appears valid") ∧
    (( validate_kql_syntax "").errors = kqlErrors "" ∧
     ( validate_kql_syntax "").message = none) :=
  ⟨(claim_C3 "Heartbeat | take 1").2.1 (by decide),
   (claim_C3 "").2.2.1 (by decide)⟩

/-- C4: the empty string validates as invalid with exactly the
one-element error list "Query is empty" and no message. -/
theorem claim_C4 :
    validate_kql_syntax "" =
      { valid := false, errors := ["Query is empty"], message := none } := by
  decide

/-- C5: with no configured upstream client, the chat handler fails
with the 503 configuration error and its detail, and the upstream call
trace is empty: no call is attempted. -/
theorem claim_C5 (deployment_name : String) (request : ChatRequest) :
    chat none deployment_name request =
      (Except.error
        { status_code := 503,
          detail := "Azure OpenAI is not configured. Set AZURE_OPENAI_ENDPOINT and AZURE_OPENAI_API_KEY." },
       []) := rfl

/-- Witness for C5 at a concrete deployment name and request. -/
theorem claim_C5_witness :
    chat none "gpt-4o-mini" hiRequest =
      (Except.error
        { status_code := 503,
          detail := "Azure OpenAI is not configured. Set AZURE_OPENAI_ENDPOINT and AZURE_OPENAI_API_KEY." },
       []) :=
  claim_C5 "gpt-4o-mini" hiRequest

/-- C6: with a configured client whose call raises with text `e`, the
chat handler fails with the 500 dependent-service error whose detail
carries `e`, and the trace holds exactly one call: no retry, and no
partially filled response is returned. -/
theorem claim_C6 (client : AzureClient) (deployment_name : String)
    (request : ChatRequest) (e : String)
    (h : client.create (upstreamCallOf deployment_name request) = Except.error e) :
    chat (some client) deployment_name request =
      (Except.error { status_code := 500, detail := "Azure OpenAI API error: " ++ e },
       [upstreamCallOf deployment_name request]) := by
  simp [chat, h]

/-- Witness for C6 with the always-raising mocked client. -/
theorem claim_C6_witness :
    chat (some mockErrClient) "gpt-4o-mini" hiRequest =
      (Except.error { status_code := 500, detail := "Azure OpenAI API error: " ++ "boom" },
       [upstreamCallOf "gpt-4o-mini" hiRequest]) :=
  claim_C6 mockErrClient "gpt-4o-mini" hiRequest "boom" rfl

/-- C7: with a configured client whose call succeeds with at least one
choice, the handler makes exactly the one call built from the request
— role/content pairs in input order, `temperature` and `max_tokens`
unmodified — and returns the first choice's text together with the
three usage counters of the upstream reply. -/
theorem claim_C7 (client : AzureClient) (deployment_name : String)
    (request : ChatRequest) (response : UpstreamResponse)
    (choice : UpstreamChoice) (rest : List UpstreamChoice)
    (h : client.create (upstreamCallOf deployment_name request) = Except.ok response)
    (hc : response.choices = choice :: rest) :
    chat (some client) deployment_name request =
      (Except.ok
        { message := choice.message.content,
          usage := some
            { prompt_tokens := response.usage.prompt_tokens,
              completion_tokens := response.usage.completion_tokens,
              total_tokens := response.usage.total_tokens } },
       [upstreamCallOf deployment_name request]) ∧
    (upstreamCallOf deployment_name request).messages =
      request.messages.map (fun msg => (msg.role, msg.content)) ∧
    (upstreamCallOf deployment_name request).temperature = request.temperature ∧
    (upstreamCallOf deployment_name request).max_tokens = request.max_tokens := by
  refine ⟨?_, rfl, rfl, rfl⟩
  simp [chat, h, hc]

/-- Witness for C7: the spec's scenario, a single user message "Hi"
against a mocked upstream answering "Hello" with usage counters 5, 3,
8, yields message "Hello" with usage counters 5, 3, 8. -/
theorem claim_C7_witness :
    chat (some mockOkClient) "gpt-4o-mini" hiRequest =
      (Except.ok
        { message := "Hello",
          usage := some { prompt_tokens := 5, completion_tokens := 3, total_tokens := 8 } },
       [upstreamCallOf "gpt-4o-mini" hiRequest]) ∧
    (upstreamCallOf "gpt-4o-mini" hiRequest).messages = [("user", "Hi")] :=
  ⟨(claim_C7 mockOkClient "gpt-4o-mini" hiRequest
      { choices := [⟨⟨"Hello"⟩⟩], usage := ⟨5, 3, 8⟩ } ⟨⟨"Hello"⟩⟩ [] rfl rfl).1, rfl⟩

/-- C8: the pre-check is total and always structured: for every input
it returns either the valid result with no errors and the confirmatory
message, or an invalid result with a non-empty error list and no
message.  (In this embedding totality also reflects that the Python
body uses only non-raising operations on `str`.) -/
theorem claim_C8 (q : String) :
    (( validate_kql_syntax q).valid = true ∧
     ( validate_kql_syntax q).errors = [] ∧
     ( validate_kql_syntax q).message = some "Query syntax appears valid") ∨
    (( validate_kql_syntax q).valid = false ∧
     ( validate_kql_syntax q).errors ≠ [] ∧
     ( validate_kql_syntax q).message = none) := by
  by_cases h : kqlErrors q = []
  · left
    simp [ validate_kql_syntax, h]
  · right
    simp [ validate_kql_syntax, h]

/-- Witness for C8 at "Heartbeat | take 1". -/
theorem claim_C8_witness :
    (( validate_kql_syntax "Heartbeat | take 1").valid = true ∧
     ( validate_kql_syntax "Heartbeat | take 1").errors = [] ∧
     ( validate_kql_syntax "Heartbeat | take 1").message = some "Query syntax appears valid") ∨
    (( validate_kql_syntax "Heartbeat | take 1").valid = false ∧
     ( validate_kql_syntax "Heartbeat | take 1").errors ≠ [] ∧
     ( validate_kql_syntax "Heartbeat | take 1").message = none) :=
  claim_C8 "Heartbeat | take 1"

/-- C9: the pre-check is deterministic and stateless: its embedding is
a pure function of the query string, so equal inputs give identical
results and repeated calls coincide. -/
theorem claim_C9 (q₁ q₂ : String) (h : q₁ = q₂) :
    validate_kql_syntax q₁ = validate_kql_syntax q₂ := by
  rw [h]

/-- Witness for C9: two calls on the same concrete input agree. -/
theorem claim_C9_witness :
    validate_kql_syntax "Heartbeat | take 1" = validate_kql_syntax "Heartbeat | take 1" :=
  claim_C9 "Heartbeat | take 1" "Heartbeat | take 1" rfl

/-- C10: the two errors never occur together: a query whose stripped
form is empty contains no parenthesis characters, so both counts are
zero and equal and the parenthesis check cannot fire. -/
theorem claim_C10 (q : String) :
    (pyStrip q = "" → q.data.count '(' = 0 ∧ q.data.count ')' = 0) ∧
    ¬("Query is empty" ∈ ( validate_kql_syntax q).errors ∧
      "Unmatched parentheses" ∈ ( validate_kql_syntax q).errors) := by
  refine ⟨stripEmpty_no_parens q, ?_⟩
  rintro ⟨h1, h2⟩
  rw [mem_errors_iff, kqlErrors_eq] at h1 h2
  by_cases hs : pyStrip q = ""
  · obtain ⟨hz1, hz2⟩ := stripEmpty_no_parens q hs
    by_cases hp : q.data.count '(' ≠ q.data.count ')'
    · exact hp (by rw [hz1, hz2])
    · simp [hs, hp] at h2
  · simp [hs] at h1

/-- Witness for C10 at the one-space query: its stripped form is empty,
its parenthesis counts are zero, and the two errors do not co-occur. -/
theorem claim_C10_witness :
    (" ".data.count '(' = 0 ∧ " ".data.count ')' = 0) ∧
    ¬("Query is empty" ∈ ( validate_kql_syntax " ").errors ∧
      "Unmatched parentheses" ∈ ( validate_kql_syntax " ").errors) :=
  ⟨(claim_C10 " ").1 (by decide), (claim_C10 " ").2⟩

end Icarus
